import Mathlib

/-!
Verification of the sandbox lifecycle manager and the process-tree
termination utility of the autocoder repository.

The embedding mirrors two source files:

* `server/services/sandbox_manager.py` — the `SandboxManager` class.  Its
  registry `self.sandboxes : dict[str, SandboxInfo]` is modelled as an
  association list with Python-dict semantics (lookup of the unique key,
  in-place update, insertion at the end, deletion).  Every operation of the
  manager is a pure function from the registry (plus the outcomes of the
  external `docker` invocations it performs, supplied as explicit
  parameters, since the runtime is an external process) to the returned
  value, the new registry, and a trace of the observable events the
  operation performs in order: runtime invocations, registry writes and
  log messages.  A Python exception escaping the operation is modelled as
  `Except.error`.
* `server/utils/process_utils.py` — `kill_process_tree`.  The behaviour of
  the operating system (which psutil calls raise, which processes exit
  within the grace period) is supplied as an explicit environment record,
  and the function computes the `KillResult` exactly as the source does.
-/

namespace Autocoder

/-- Association list with Python-dict semantics; `alget` is `d.get(k)`. -/
def alget {κ α : Type} [DecidableEq κ] : List (κ × α) → κ → Option α
  | [], _ => none
  | (k', v) :: rest, k => if k' = k then some v else alget rest k

/-- `d[k] = v`: update in place when the key is present, else append. -/
def alset {κ α : Type} [DecidableEq κ] : List (κ × α) → κ → α → List (κ × α)
  | [], k, v => [(k, v)]
  | (k', v') :: rest, k, v =>
      if k' = k then (k, v) :: rest else (k', v') :: alset rest k v

/-- `del d[k]`: remove the entry with key `k`. -/
def aldel {κ α : Type} [DecidableEq κ] : List (κ × α) → κ → List (κ × α)
  | [], _ => []
  | (k', v') :: rest, k =>
      if k' = k then rest else (k', v') :: aldel rest k

/-- Information about a sandbox container (`SandboxInfo` dataclass).
`created_at` is the creation timestamp in seconds; `status` is one of the
strings "creating", "running", "stopped", "error" exactly as in the
source. -/
structure SandboxInfo where
  sandbox_id : String
  container_id : String
  project_name : String
  status : String
  created_at : Int
  workspace_path : String
  ports : List (String × Int)
  resource_limits : List (String × String)
deriving Repr, DecidableEq

/-- The registry `self.sandboxes : dict[str, SandboxInfo]`. -/
abbrev Registry : Type := List (String × SandboxInfo)

/-- Outcome of one external runtime invocation as observed through
`_run_command`: success carries the captured stdout, failure carries the
data of the `CalledProcessError`. -/
inductive CmdResult where
  | ok (stdout : String)
  | err (returncode : Int) (stdout : String) (stderr : String)
deriving Repr, DecidableEq

/-- Whether a runtime invocation succeeded (exit code zero). -/
def CmdResult.isOk : CmdResult → Bool
  | .ok _ => true
  | .err _ _ _ => false

/-- Outcome of `_run_command_with_output`, which never raises: the local
`Result` class of the source. -/
structure CmdOutput where
  returncode : Int
  stdout : String
  stderr : String
deriving Repr, DecidableEq

/-- A Python exception escaping a manager operation. -/
inductive PyError where
  | valueError (msg : String)
  | runtimeError (msg : String)
deriving Repr, DecidableEq

/-- Observable events of one manager operation, in program order. -/
inductive Event where
  | runtimeCall (cmd : List String)
  | registryInsert (key : String) (info : SandboxInfo)
  | registryDelete (key : String)
  | logInfo (msg : String)
  | logWarning (msg : String)
  | logError (msg : String)
deriving Repr, DecidableEq

/-- Is the event an invocation of the container runtime? -/
def Event.isRuntimeCall : Event → Bool
  | .runtimeCall _ => true
  | _ => false

/-- Is the event a registry insert (of any record)? -/
def Event.isRegistryInsert : Event → Bool
  | .registryInsert _ _ => true
  | _ => false

/-- Is the event an error-level log message? -/
def Event.isLogError : Event → Bool
  | .logError _ => true
  | _ => false

namespace SandboxManager

/-- The port-mapping arguments of the `docker run` command:
`cmd.extend(["-p", f"{host_port}:{container_port}"])` per entry. -/
def portArgs (ports : List (String × Int)) : List String :=
  ports.flatMap (fun p => ["-p", toString p.2 ++ ":" ++ p.1])

/-- The full detached `docker run` command built by `create_sandbox`. -/
def dockerRunCmd (container_name project_name sandbox_id memory_limit
    cpu_limit volume_name : String) (ports : List (String × Int)) :
    List String :=
  ["docker", "run", "-d", "--name", container_name,
   "--label", "autocoder.sandbox=true",
   "--label", "autocoder.project=" ++ project_name,
   "--label", "autocoder.sandbox_id=" ++ sandbox_id,
   "--memory", memory_limit,
   "--cpus", cpu_limit,
   "--network", "autocoder_default",
   "-v", volume_name ++ ":/workspace"]
  ++ portArgs ports
  ++ ["autocoder-sandbox:latest"]

/-- `SandboxManager.create_sandbox`.  `hex8` is the value of
`uuid.uuid4().hex[:8]` drawn for this call, `now` the value of
`datetime.now()`, and `volRes` / `runRes` the outcomes of the
`docker volume create` and `docker run` invocations.  Returns the value
returned or exception raised, the registry after the call, and the trace. -/
def create_sandbox (sandboxes : Registry) (hex8 : String)
    (project_name : String) (memory_limit : String := "2g")
    (cpu_limit : String := "2.0") (ports : List (String × Int) := [])
    (now : Int := 0) (volRes : CmdResult := .ok "")
    (runRes : CmdResult := .ok "") :
    Except PyError SandboxInfo × Registry × List Event :=
  let sandbox_id := "sandbox-" ++ hex8
  let container_name := "autocoder-sandbox-" ++ project_name ++ "-" ++ sandbox_id
  let volume_name := container_name ++ "-workspace"
  let volCmd := ["docker", "volume", "create", volume_name]
  let ev0 := [Event.logInfo ("Creating sandbox " ++ sandbox_id ++
      " for project " ++ project_name), Event.runtimeCall volCmd]
  match volRes with
  | .err _ _ _ =>
      (.error (.runtimeError "Failed to create volume"), sandboxes,
        ev0 ++ [Event.logError "Failed to create volume"])
  | .ok _ =>
      let cmd := dockerRunCmd container_name project_name sandbox_id
        memory_limit cpu_limit volume_name ports
      let info : SandboxInfo :=
        { sandbox_id := sandbox_id, container_id := "",
          project_name := project_name, status := "creating",
          created_at := now, workspace_path := "/workspace",
          ports := ports,
          resource_limits := [("memory", memory_limit), ("cpu", cpu_limit)] }
      match runRes with
      | .ok output =>
          let info2 := { info with container_id := output.trim,
                                   status := "running" }
          (.ok info2, alset sandboxes sandbox_id info2,
            ev0 ++ [Event.runtimeCall cmd,
                    Event.registryInsert sandbox_id info2,
                    Event.logInfo ("Sandbox " ++ sandbox_id ++
                      " created with container " ++ output.trim)])
      | .err _ _ _ =>
          let info2 := { info with status := "error" }
          (.error (.runtimeError "Failed to create sandbox"),
            alset sandboxes sandbox_id info2,
            ev0 ++ [Event.runtimeCall cmd,
                    Event.logError "Failed to create sandbox",
                    Event.registryInsert sandbox_id info2])

/-- `SandboxManager.get_sandbox`: `self.sandboxes.get(sandbox_id)`. -/
def get_sandbox (sandboxes : Registry) (sandbox_id : String) :
    Option SandboxInfo :=
  alget sandboxes sandbox_id

/-- `SandboxManager.list_sandboxes`. -/
def list_sandboxes (sandboxes : Registry)
    (project_name : Option String := none) : List SandboxInfo :=
  match project_name with
  | some p => (sandboxes.map Prod.snd).filter (fun s => s.project_name = p)
  | none => sandboxes.map Prod.snd

/-- `SandboxManager.stop_sandbox`.  `stopRes` is the outcome of the
`docker stop` invocation, consulted only when the code reaches it. -/
def stop_sandbox (sandboxes : Registry) (sandbox_id : String)
    (stopRes : CmdResult := .ok "") : Bool × Registry × List Event :=
  match alget sandboxes sandbox_id with
  | none =>
      (false, sandboxes,
        [Event.logWarning ("Sandbox " ++ sandbox_id ++ " not found")])
  | some info =>
      if info.status = "stopped" then
        (true, sandboxes, [])
      else
        match stopRes with
        | .ok _ =>
            (true, alset sandboxes sandbox_id { info with status := "stopped" },
              [Event.runtimeCall ["docker", "stop", info.container_id],
               Event.logInfo ("Sandbox " ++ sandbox_id ++ " stopped")])
        | .err _ _ _ =>
            (false, sandboxes,
              [Event.runtimeCall ["docker", "stop", info.container_id],
               Event.logError ("Failed to stop sandbox " ++ sandbox_id)])

/-- `SandboxManager.start_sandbox`. -/
def start_sandbox (sandboxes : Registry) (sandbox_id : String)
    (startRes : CmdResult := .ok "") : Bool × Registry × List Event :=
  match alget sandboxes sandbox_id with
  | none =>
      (false, sandboxes,
        [Event.logWarning ("Sandbox " ++ sandbox_id ++ " not found")])
  | some info =>
      if info.status = "running" then
        (true, sandboxes, [])
      else
        match startRes with
        | .ok _ =>
            (true, alset sandboxes sandbox_id { info with status := "running" },
              [Event.runtimeCall ["docker", "start", info.container_id],
               Event.logInfo ("Sandbox " ++ sandbox_id ++ " started")])
        | .err _ _ _ =>
            (false, sandboxes,
              [Event.runtimeCall ["docker", "start", info.container_id],
               Event.logError ("Failed to start sandbox " ++ sandbox_id)])

/-- The events of the best-effort volume-removal step of
`destroy_sandbox`: when requested, one `docker volume rm` invocation, with
a warning (not a propagated failure) when it exits non-zero. -/
def volRemovalEvents (remove_volume : Bool) (volRes : CmdResult)
    (volume_name : String) : List Event :=
  if remove_volume then
    match volRes with
    | .ok _ => [Event.runtimeCall ["docker", "volume", "rm", volume_name]]
    | .err _ _ _ =>
        [Event.runtimeCall ["docker", "volume", "rm", volume_name],
         Event.logWarning ("Failed to remove volume " ++ volume_name)]
  else []

/-- `SandboxManager.destroy_sandbox`.  `rmRes` is the outcome of
`docker rm -f`, `volRes` the outcome of `docker volume rm` (consulted only
when `remove_volume` holds and the container removal succeeded). -/
def destroy_sandbox (sandboxes : Registry) (sandbox_id : String)
    (remove_volume : Bool := true) (rmRes : CmdResult := .ok "")
    (volRes : CmdResult := .ok "") : Bool × Registry × List Event :=
  match alget sandboxes sandbox_id with
  | none =>
      (false, sandboxes,
        [Event.logWarning ("Sandbox " ++ sandbox_id ++ " not found")])
  | some info =>
      let rmCmd := ["docker", "rm", "-f", info.container_id]
      match rmRes with
      | .err _ _ _ =>
          (false, sandboxes,
            [Event.runtimeCall rmCmd,
             Event.logError ("Failed to destroy sandbox " ++ sandbox_id)])
      | .ok _ =>
          let volume_name := "autocoder-sandbox-" ++ info.project_name ++
            "-" ++ sandbox_id ++ "-workspace"
          (true, aldel sandboxes sandbox_id,
            [Event.runtimeCall rmCmd] ++
              volRemovalEvents remove_volume volRes volume_name ++
              [Event.registryDelete sandbox_id,
               Event.logInfo ("Sandbox " ++ sandbox_id ++ " destroyed")])

/-- `SandboxManager.execute_command`.  `execRes` is what
`_run_command_with_output` would observe for the `docker exec`; it is
consulted only when the code reaches the invocation.  An unknown id raises
`ValueError`, a non-running sandbox raises `RuntimeError`, and otherwise
the triple `(returncode, stdout, stderr)` is returned as values (the
`except CalledProcessError` arm is unreachable because
`_run_command_with_output` never raises, and it would return the same
triple). -/
def execute_command (sandboxes : Registry) (sandbox_id : String)
    (command : List String) (workdir : String := "/workspace")
    (execRes : CmdOutput := ⟨0, "", ""⟩) :
    Except PyError (Int × String × String) × List Event :=
  match alget sandboxes sandbox_id with
  | none =>
      (.error (.valueError ("Sandbox " ++ sandbox_id ++ " not found")), [])
  | some info =>
      if info.status = "running" then
        (.ok (execRes.returncode, execRes.stdout, execRes.stderr),
          [Event.runtimeCall (["docker", "exec", "-w", workdir,
            info.container_id] ++ command)])
      else
        (.error (.runtimeError ("Sandbox " ++ sandbox_id ++ " is not running")),
          [])

/-- The sub-steps of `cleanup_stopped_sandboxes`: destroy each id of
`to_remove` in order (with `remove_volume = True`, the default), counting
the successful destroys.  `rmO` and `volO` give, per sandbox id, the
outcomes of the runtime invocations the destroy of that id performs. -/
def cleanupLoop (sandboxes : Registry) (ids : List String)
    (rmO volO : String → CmdResult) : Nat × Registry × List Event :=
  match ids with
  | [] => (0, sandboxes, [])
  | id :: rest =>
      let r1 := destroy_sandbox sandboxes id true (rmO id) (volO id)
      let r2 := cleanupLoop r1.2.1 rest rmO volO
      ((if r1.1 then 1 else 0) + r2.1, r2.2.1, r1.2.2 ++ r2.2.2)

/-- The selection predicate of `cleanup_stopped_sandboxes`: status
"stopped" and age in hours above the threshold.  The source compares
`(now - created_at).total_seconds() / 3600 > older_than_hours` over the
reals, which for integral times is equivalent to
`now - created_at > 3600 * older_than_hours`. -/
def isStaleStopped (older_than_hours now : Int) (info : SandboxInfo) : Bool :=
  decide (info.status = "stopped" ∧ now - info.created_at > 3600 * older_than_hours)

/-- The `to_remove` list of `cleanup_stopped_sandboxes`: ids of entries
with status "stopped" whose age in hours exceeds the threshold. -/
def cleanupToRemove (sandboxes : Registry) (older_than_hours : Int)
    (now : Int) : List String :=
  (sandboxes.filter (fun p => isStaleStopped older_than_hours now p.2)).map
    Prod.fst

/-- `SandboxManager.cleanup_stopped_sandboxes`: collect the stopped,
over-age ids first, then destroy each sequentially, returning the number
of sandboxes actually destroyed. -/
def cleanup_stopped_sandboxes (sandboxes : Registry)
    (older_than_hours : Int := 24) (now : Int := 0)
    (rmO : String → CmdResult := fun _ => .ok "")
    (volO : String → CmdResult := fun _ => .ok "") :
    Nat × Registry × List Event :=
  cleanupLoop sandboxes (cleanupToRemove sandboxes older_than_hours now) rmO volO

/-- The sandbox ids returned by a sequence of `create_sandbox` calls on one
manager instance, one call per entry of `hexes` (the successive values of
`uuid.uuid4().hex[:8]`), all with successful runtime invocations. -/
def createIds (sandboxes : Registry) (hexes : List String)
    (project_name : String) : List String × Registry :=
  match hexes with
  | [] => ([], sandboxes)
  | h :: rest =>
      let r := create_sandbox sandboxes h project_name
      let rid := match r.1 with
        | .ok i => i.sandbox_id
        | .error _ => "sandbox-" ++ h
      let r2 := createIds r.2.1 rest project_name
      (rid :: r2.1, r2.2)

end SandboxManager

/-! ## The process-tree terminator (`server/utils/process_utils.py`) -/

/-- Result of a process tree kill operation (`KillResult` dataclass);
`status` is one of "success", "partial", "failure". -/
structure KillResult where
  status : String
  parent_pid : Int
  children_found : Nat := 0
  children_terminated : Nat := 0
  children_killed : Nat := 0
  parent_forcekilled : Bool := false
deriving Repr, DecidableEq

/-- Operating-system behaviour of one child process during the kill:
whether its `terminate()` raises `NoSuchProcess`/`AccessDenied`, whether
it exits within the grace period (so `psutil.wait_procs` lists it as
gone), and whether its `kill()` raises. -/
structure ChildBehavior where
  termRaises : Bool
  exitsInGrace : Bool
  killRaises : Bool
deriving Repr, DecidableEq

/-- Operating-system behaviour of one `kill_process_tree` call.
`rootEnumerable` is false when `psutil.Process(proc.pid)` or
`parent.children(recursive=True)` raises `NoSuchProcess`/`AccessDenied`
(the only statements of the protected block that can raise them: every
psutil call on a child is inside its own handler), sending the code to the
direct-cleanup fallback.  `parentExitsInGrace` tells whether
`proc.wait(timeout)` returns before the grace period expires.
`fallbackTermOk` tells whether the fallback `proc.terminate()` plus
`proc.wait(timeout=1)` succeeds (false covers both `TimeoutExpired` and
`OSError`); `fallbackKillOk` whether the fallback `proc.kill()` succeeds. -/
structure KillEnv where
  rootEnumerable : Bool
  children : List ChildBehavior
  parentExitsInGrace : Bool
  fallbackTermOk : Bool
  fallbackKillOk : Bool
deriving Repr, DecidableEq

/-- The `gone` partition returned by `psutil.wait_procs`: the children
that exited within the grace period. -/
def goneChildren (children : List ChildBehavior) : List ChildBehavior :=
  children.filter (fun c => c.exitsInGrace)

/-- The `still_alive` partition returned by `psutil.wait_procs`. -/
def stillAliveChildren (children : List ChildBehavior) : List ChildBehavior :=
  children.filter (fun c => ¬ c.exitsInGrace)

/-- The tally `result.children_killed` after the force-kill loop: the
still-alive children whose `kill()` did not raise. -/
def killedCount (children : List ChildBehavior) : Nat :=
  ((stillAliveChildren children).filter (fun c => ¬ c.killRaises)).length

/-- `kill_process_tree(proc, timeout)` as a function of the process id and
the operating-system behaviour.  Mirrors the source: snapshot the children
once; terminate each (ignoring raises); wait, partitioning into gone and
still-alive; force-kill the still-alive ones, counting those whose kill
does not raise; set status "partial" when any child was force-killed;
terminate the parent and, when it does not exit within the grace period,
force-kill it, mark `parent_forcekilled` and set status "partial".  When
the root cannot be enumerated, fall back to a direct terminate-then-kill
on the handle, skipping child accounting, degrading status to "failure"
only when even the direct kill raises. -/
def kill_process_tree (pid : Int) (env : KillEnv) : KillResult :=
  if env.rootEnumerable then
    if env.parentExitsInGrace then
      { status := if killedCount env.children > 0 then "partial" else "success",
        parent_pid := pid,
        children_found := env.children.length,
        children_terminated := (goneChildren env.children).length,
        children_killed := killedCount env.children,
        parent_forcekilled := false }
    else
      { status := "partial", parent_pid := pid,
        children_found := env.children.length,
        children_terminated := (goneChildren env.children).length,
        children_killed := killedCount env.children,
        parent_forcekilled := true }
  else
    if env.fallbackTermOk then
      { status := "success", parent_pid := pid }
    else if env.fallbackKillOk then
      { status := "success", parent_pid := pid }
    else
      { status := "failure", parent_pid := pid }

/-! ## Object identity of registry records

The registry of the source stores references to mutable `SandboxInfo`
objects, and `get_sandbox` returns `self.sandboxes.get(sandbox_id)` — the
stored reference itself, not a copy (`list_sandboxes` returns a fresh list
of the same references, and `create_sandbox` returns the very object it
stored).  To reason about this aliasing we refine the registry into a heap
of records addressed by object identity plus a map from sandbox id to
address. -/

/-- A heap of `SandboxInfo` objects addressed by object identity. -/
abbrev Heap : Type := List (Nat × SandboxInfo)

instance : Inhabited SandboxInfo :=
  ⟨{ sandbox_id := "", container_id := "", project_name := "",
     status := "", created_at := 0, workspace_path := "", ports := [],
     resource_limits := [] }⟩

/-- The manager state at the object level: the heap and the registry
mapping each sandbox id to the address of its record. -/
structure HeapState where
  heap : Heap
  registry : List (String × Nat)
deriving Repr, DecidableEq

/-- Replace the record at address `a` (no-op when absent). -/
def heapSet (h : Heap) (a : Nat) (v : SandboxInfo) : Heap :=
  alset h a v

/-- `get_sandbox` at the object level: the reference held by the registry
is handed to the caller unchanged. -/
def get_sandbox_ref (st : HeapState) (sandbox_id : String) : Option Nat :=
  alget st.registry sandbox_id

/-- `list_sandboxes` (unfiltered) at the object level: a fresh list of the
stored references. -/
def list_sandbox_refs (st : HeapState) : List Nat :=
  st.registry.map Prod.snd

/-- The caller mutates `record.status` through a reference it received. -/
def set_status_via_ref (st : HeapState) (a : Nat) (v : String) : HeapState :=
  { st with heap := heapSet st.heap a (match alget st.heap a with
      | some info => { info with status := v }
      | none => default) }

/-- Observing a sandbox through `get_sandbox` at the object level:
dereference the address the registry holds. -/
def observe (st : HeapState) (sandbox_id : String) : Option SandboxInfo :=
  match get_sandbox_ref st sandbox_id with
  | some a => alget st.heap a
  | none => none

/-! ## Lemmas about the association-list operations -/

theorem alget_alset_self {κ α : Type} [DecidableEq κ] (d : List (κ × α))
    (k : κ) (v : α) : alget (alset d k v) k = some v := by
  induction d with
  | nil => simp [alset, alget]
  | cons hd tl ih =>
      by_cases h : hd.1 = k
      · simp [alset, alget, h]
      · simp [alset, alget, h, ih]

theorem alget_alset_ne {κ α : Type} [DecidableEq κ] (d : List (κ × α))
    (k k' : κ) (v : α) (h : k' ≠ k) :
    alget (alset d k v) k' = alget d k' := by
  induction d with
  | nil => simp [alset, alget, Ne.symm h]
  | cons hd tl ih =>
      obtain ⟨k0, v0⟩ := hd
      by_cases hk : k0 = k
      · subst hk
        simp [alset, alget, Ne.symm h]
      · by_cases hk' : k0 = k'
        · subst hk'
          simp [alset, alget, hk]
        · simp [alset, alget, hk, hk', ih]

theorem mem_of_mem_aldel {κ α : Type} [DecidableEq κ] {d : List (κ × α)}
    {k : κ} {p : κ × α} (h : p ∈ aldel d k) : p ∈ d := by
  induction d with
  | nil => simp [aldel] at h
  | cons hd tl ih =>
      by_cases hk : hd.1 = k
      · simp only [aldel, hk, if_pos rfl] at h
        exact List.mem_cons_of_mem hd h
      · simp only [aldel, hk, if_neg hk] at h
        rcases List.mem_cons.mp h with h1 | h1
        · exact h1 ▸ List.mem_cons_self hd tl
        · exact List.mem_cons_of_mem hd (ih h1)

theorem alget_aldel_ne {κ α : Type} [DecidableEq κ] (d : List (κ × α))
    (k k' : κ) (h : k' ≠ k) : alget (aldel d k) k' = alget d k' := by
  induction d with
  | nil => simp [aldel]
  | cons hd tl ih =>
      obtain ⟨k0, v0⟩ := hd
      by_cases hk : k0 = k
      · subst hk
        simp [aldel, alget, Ne.symm h]
      · by_cases hk' : k0 = k'
        · subst hk'
          simp [aldel, alget, hk]
        · simp [aldel, alget, hk, hk', ih]

theorem alget_eq_none_of_not_mem_keys {κ α : Type} [DecidableEq κ]
    {d : List (κ × α)} {k : κ} (h : k ∉ d.map Prod.fst) :
    alget d k = none := by
  induction d with
  | nil => simp [alget]
  | cons hd tl ih =>
      simp only [List.map_cons, List.mem_cons] at h
      push_neg at h
      have h1 : ¬ hd.1 = k := fun hh => h.1 hh.symm
      simp [alget, h1, ih h.2]

theorem alget_isSome_of_mem {κ α : Type} [DecidableEq κ]
    {d : List (κ × α)} {p : κ × α} (h : p ∈ d) :
    (alget d p.1).isSome = true := by
  induction d with
  | nil => simp at h
  | cons hd tl ih =>
      rcases List.mem_cons.mp h with h1 | h1
      · simp [alget, h1]
      · by_cases hk : hd.1 = p.1
        · simp [alget, hk]
        · simp [alget, hk, ih h1]

theorem alget_aldel_self {κ α : Type} [DecidableEq κ] (d : List (κ × α))
    (k : κ) (hnd : (d.map Prod.fst).Nodup) : alget (aldel d k) k = none := by
  induction d with
  | nil => simp [aldel, alget]
  | cons hd tl ih =>
      simp only [List.map_cons, List.nodup_cons] at hnd
      by_cases hk : hd.1 = k
      · simp only [aldel, hk, if_pos rfl]
        exact alget_eq_none_of_not_mem_keys (hk ▸ hnd.1)
      · simp [aldel, alget, hk, ih hnd.2]

theorem keys_aldel_sublist {κ α : Type} [DecidableEq κ] (d : List (κ × α))
    (k : κ) : ((aldel d k).map Prod.fst).Sublist (d.map Prod.fst) := by
  induction d with
  | nil => simp [aldel]
  | cons hd tl ih =>
      obtain ⟨k0, v0⟩ := hd
      by_cases hk : k0 = k
      · subst hk
        simp only [aldel, if_pos rfl, List.map_cons]
        exact (List.Sublist.refl _).cons k0
      · simp only [aldel, if_neg hk, List.map_cons]
        exact ih.cons₂ k0

theorem keys_aldel_nodup {κ α : Type} [DecidableEq κ] (d : List (κ × α))
    (k : κ) (hnd : (d.map Prod.fst).Nodup) :
    ((aldel d k).map Prod.fst).Nodup :=
  (keys_aldel_sublist d k).nodup hnd

theorem fst_ne_of_mem_aldel {κ α : Type} [DecidableEq κ] {d : List (κ × α)}
    {k : κ} {p : κ × α} (hnd : (d.map Prod.fst).Nodup)
    (h : p ∈ aldel d k) : p.1 ≠ k := by
  induction d with
  | nil => simp [aldel] at h
  | cons hd tl ih =>
      obtain ⟨k0, v0⟩ := hd
      simp only [List.map_cons, List.nodup_cons] at hnd
      by_cases hk : k0 = k
      · subst hk
        simp only [aldel, if_pos rfl] at h
        intro hpk
        exact hnd.1 (hpk ▸ List.mem_map_of_mem Prod.fst h)
      · simp only [aldel, if_neg hk] at h
        rcases List.mem_cons.mp h with h1 | h1
        · rw [h1]
          exact hk
        · exact ih hnd.2 h1

theorem keys_filter_subset_keys {κ α : Type} (q : κ × α → Bool)
    (d : List (κ × α)) {k : κ} (h : k ∈ (d.filter q).map Prod.fst) :
    k ∈ d.map Prod.fst :=
  ((List.filter_sublist d).map Prod.fst).subset h

theorem mem_keys_filter_iff {κ α : Type} [DecidableEq κ]
    {d : List (κ × α)} {k : κ} {v : α} (q : κ × α → Bool)
    (hnd : (d.map Prod.fst).Nodup) (hget : alget d k = some v) :
    k ∈ ((d.filter q).map Prod.fst) ↔ q (k, v) = true := by
  induction d with
  | nil => simp [alget] at hget
  | cons hd tl ih =>
      obtain ⟨k0, v0⟩ := hd
      simp only [List.map_cons, List.nodup_cons] at hnd
      by_cases hk : k0 = k
      · subst hk
        simp only [alget, if_true, Option.some.injEq] at hget
        subst hget
        have hnotin : k0 ∉ (tl.filter q).map Prod.fst := fun hmem =>
          hnd.1 (keys_filter_subset_keys q tl hmem)
        by_cases hq : q (k0, v0) = true
        · simp [List.filter_cons, hq]
        · rw [List.filter_cons, if_neg (by simpa using hq)]
          constructor
          · intro hmem
            exact absurd hmem hnotin
          · intro hmem
            exact absurd hmem hq
      · have hget' : alget tl k = some v := by
          simpa [alget, hk] using hget
        by_cases hq : q (k0, v0) = true
        · rw [List.filter_cons, if_pos (by simpa using hq)]
          simp only [List.map_cons, List.mem_cons]
          rw [ih hnd.2 hget']
          constructor
          · rintro (h1 | h1)
            · exact absurd h1.symm hk
            · exact h1
          · exact Or.inr
        · rw [List.filter_cons, if_neg (by simpa using hq)]
          exact ih hnd.2 hget'

theorem snd_mem_of_alget {κ α : Type} [DecidableEq κ] {d : List (κ × α)}
    {k : κ} {v : α} (h : alget d k = some v) : v ∈ d.map Prod.snd := by
  induction d with
  | nil => simp [alget] at h
  | cons hd tl ih =>
      obtain ⟨k0, v0⟩ := hd
      by_cases hk : k0 = k
      · subst hk
        simp only [alget, if_true, Option.some.injEq] at h
        simp [h.symm]
      · simp only [alget, if_neg hk] at h
        simp [ih h]

theorem alget_isSome_of_mem_keys {κ α : Type} [DecidableEq κ]
    {d : List (κ × α)} {k : κ} (h : k ∈ d.map Prod.fst) :
    (alget d k).isSome = true := by
  rcases List.mem_map.mp h with ⟨p, hp, hpk⟩
  exact hpk ▸ alget_isSome_of_mem hp

/-! ## Well-formedness and sample data -/

/-- Invariant of registries built by the manager: the keys are pairwise
distinct (they are dict keys) and each record is stored under its own
sandbox id. -/
def RegistryWF (sandboxes : Registry) : Prop :=
  (sandboxes.map Prod.fst).Nodup ∧ ∀ p ∈ sandboxes, p.2.sandbox_id = p.1

instance (sandboxes : Registry) : Decidable (RegistryWF sandboxes) := by
  unfold RegistryWF
  infer_instance

/-- A concrete sandbox record used to evaluate the theorems. -/
def sampleInfo (st : String) : SandboxInfo :=
  { sandbox_id := "s1", container_id := "c1", project_name := "proj",
    status := st, created_at := 0, workspace_path := "/workspace",
    ports := [], resource_limits := [("memory", "2g"), ("cpu", "2.0")] }

/-! ## The claims -/

/-- Is the event an insert of a record whose status is "creating"? -/
def Event.isCreatingInsert : Event → Bool
  | .registryInsert _ i => i.status = "creating"
  | _ => false

/-- Does a registry insert occur strictly before the first runtime
invocation of the trace? -/
def insertBeforeFirstRuntime : List Event → Bool
  | [] => false
  | Event.runtimeCall _ :: _ => false
  | Event.registryInsert _ _ :: _ => true
  | _ :: rest => insertBeforeFirstRuntime rest

/-- C1 counterexample: a concrete successful `create_sandbox` call whose
trace contains two runtime invocations (`docker volume create` and
`docker run`), yet no registry insert precedes the first of them, and no
inserted record ever has status Creating — the Creating record is built in
memory only and first enters the registry after the run attempt, already
as Running (or as Error on failure).  This refutes the claim that a
Creating record is inserted into the registry before the runtime is
invoked. -/
theorem create_sandbox_no_insert_before_runtime :
    (SandboxManager.create_sandbox [] "0a1b2c3d" "demo" "2g" "2.0" [] 0
        (.ok "") (.ok "abc123\n")).2.2.countP Event.isRuntimeCall = 2 ∧
    insertBeforeFirstRuntime
      (SandboxManager.create_sandbox [] "0a1b2c3d" "demo" "2g" "2.0" [] 0
        (.ok "") (.ok "abc123\n")).2.2 = false ∧
    (SandboxManager.create_sandbox [] "0a1b2c3d" "demo" "2g" "2.0" [] 0
        (.ok "") (.ok "abc123\n")).2.2.countP Event.isRegistryInsert = 1 ∧
    (SandboxManager.create_sandbox [] "0a1b2c3d" "demo" "2g" "2.0" [] 0
        (.ok "") (.ok "abc123\n")).2.2.any Event.isCreatingInsert = false := by
  decide

/-- C1 amended: `create_sandbox` builds the Creating record in memory but
inserts nothing into the registry before invoking the runtime; after the
detached run the record is inserted — as Running with the returned
(whitespace-stripped) container id when the run succeeds, as Error with
the failure surfaced to the caller when it fails; a volume-creation
failure is surfaced without inserting any record. -/
theorem create_sandbox_spec (sandboxes : Registry)
    (hex8 project_name memory_limit cpu_limit : String)
    (ports : List (String × Int)) (now : Int) (volRes runRes : CmdResult) :
    insertBeforeFirstRuntime
      (SandboxManager.create_sandbox sandboxes hex8 project_name
        memory_limit cpu_limit ports now volRes runRes).2.2 = false ∧
    (∀ s out, volRes = .ok s → runRes = .ok out →
      ∃ i, (SandboxManager.create_sandbox sandboxes hex8 project_name
          memory_limit cpu_limit ports now volRes runRes).1 = Except.ok i ∧
        i.status = "running" ∧ i.container_id = out.trim ∧
        alget (SandboxManager.create_sandbox sandboxes hex8 project_name
          memory_limit cpu_limit ports now volRes runRes).2.1
          ("sandbox-" ++ hex8) = some i) ∧
    (∀ s rc so se, volRes = .ok s → runRes = .err rc so se →
      (SandboxManager.create_sandbox sandboxes hex8 project_name
          memory_limit cpu_limit ports now volRes runRes).1 =
        Except.error (PyError.runtimeError "Failed to create sandbox") ∧
      ∃ i, alget (SandboxManager.create_sandbox sandboxes hex8 project_name
          memory_limit cpu_limit ports now volRes runRes).2.1
          ("sandbox-" ++ hex8) = some i ∧
        i.status = "error" ∧ i.container_id = "") ∧
    (∀ rc so se, volRes = .err rc so se →
      (SandboxManager.create_sandbox sandboxes hex8 project_name
          memory_limit cpu_limit ports now volRes runRes).1 =
        Except.error (PyError.runtimeError "Failed to create volume") ∧
      (SandboxManager.create_sandbox sandboxes hex8 project_name
          memory_limit cpu_limit ports now volRes runRes).2.1 = sandboxes) := by
  refine ⟨?_, ?_, ?_, ?_⟩
  · cases volRes with
    | ok s => cases runRes <;>
        simp [SandboxManager.create_sandbox, insertBeforeFirstRuntime]
    | err rc so se =>
        simp [SandboxManager.create_sandbox, insertBeforeFirstRuntime]
  · rintro s out rfl rfl
    refine ⟨_, rfl, rfl, rfl, ?_⟩
    exact alget_alset_self sandboxes ("sandbox-" ++ hex8) _
  · rintro s rc so se rfl rfl
    exact ⟨rfl, _, alget_alset_self sandboxes ("sandbox-" ++ hex8) _, rfl, rfl⟩
  · rintro rc so se rfl
    exact ⟨rfl, rfl⟩

/-- Witness for C1 amended: the success and failure branches evaluated on
concrete runtime outcomes. -/
theorem create_sandbox_spec_witness :
    (∃ i, (SandboxManager.create_sandbox [] "0a1b2c3d" "demo" "2g" "2.0" []
        0 (.ok "") (.ok "abc123\n")).1 = Except.ok i ∧
      i.status = "running" ∧ i.container_id = "abc123\n".trim ∧
      alget (SandboxManager.create_sandbox [] "0a1b2c3d" "demo" "2g" "2.0"
        [] 0 (.ok "") (.ok "abc123\n")).2.1 "sandbox-0a1b2c3d" = some i) ∧
    (SandboxManager.create_sandbox [] "0a1b2c3d" "demo" "2g" "2.0" [] 0
        (.ok "") (.err 125 "" "no image")).1 =
      Except.error (PyError.runtimeError "Failed to create sandbox") := by
  refine ⟨(create_sandbox_spec [] "0a1b2c3d" "demo" "2g" "2.0" [] 0
    (.ok "") (.ok "abc123\n")).2.1 "" "abc123\n" rfl rfl, ?_⟩
  exact ((create_sandbox_spec [] "0a1b2c3d" "demo" "2g" "2.0" [] 0
    (.ok "") (.err 125 "" "no image")).2.2.1 "" 125 "" "no image" rfl rfl).1

/-- The id list produced by `createIds` is the hex draws prefixed with
"sandbox-", exactly as `create_sandbox` forms its ids. -/
theorem createIds_fst (sandboxes : Registry) (hexes : List String)
    (project_name : String) :
    (SandboxManager.createIds sandboxes hexes project_name).1 =
      hexes.map (fun h => "sandbox-" ++ h) := by
  induction hexes generalizing sandboxes with
  | nil => rfl
  | cons h t ih =>
      simp [SandboxManager.createIds, SandboxManager.create_sandbox, ih]

/-- C8 counterexample: the code derives `sandbox_id` from
`uuid.uuid4().hex[:8]` with no collision check, so an execution in which
two calls draw the same 8-hex-character value produces two equal
`sandbox_id`s (and the second silently overwrites the first registry
entry): the ids of a call sequence are not pairwise distinct in every
execution. -/
theorem createIds_duplicate_counterexample :
    (SandboxManager.createIds [] ["0a1b2c3d", "0a1b2c3d"] "p").1 =
      ["sandbox-0a1b2c3d", "sandbox-0a1b2c3d"] ∧
    ¬ (SandboxManager.createIds [] ["0a1b2c3d", "0a1b2c3d"] "p").1.Nodup := by
  decide

/-- C8 amended: the `sandbox_id`s of a sequence of `create_sandbox` calls
on one manager are pairwise distinct provided the uuid-derived
8-hex-character draws of the calls are pairwise distinct (each id being
"sandbox-" ++ the draw); the code itself contains no collision guard. -/
theorem createIds_nodup (sandboxes : Registry) (hexes : List String)
    (project_name : String) (hnd : hexes.Nodup) :
    (SandboxManager.createIds sandboxes hexes project_name).1.Nodup := by
  rw [createIds_fst]
  refine hnd.map ?_
  intro a b hab
  have h2 : ("sandbox-" ++ a).data = ("sandbox-" ++ b).data :=
    congrArg String.data hab
  simp only [String.data_append] at h2
  exact String.ext (List.append_cancel_left h2)

/-- Witness for C8 amended: two distinct draws give two distinct ids. -/
theorem createIds_nodup_witness :
    (SandboxManager.createIds [] ["0a1b2c3d", "4e5f6a7b"] "p").1.Nodup :=
  createIds_nodup [] ["0a1b2c3d", "4e5f6a7b"] "p" (by decide)

/-- The environment of a `kill_process_tree` call in which the root cannot
be enumerated, its direct graceful termination fails, and only the direct
force-kill succeeds. -/
def fallbackOnlyKillEnv : KillEnv :=
  { rootEnumerable := false, children := [], parentExitsInGrace := true,
    fallbackTermOk := false, fallbackKillOk := true }

/-- C2 counterexample: in `fallbackOnlyKillEnv` the root required forceful
killing (the direct terminate-and-wait failed and the code fell through to
`proc.kill()`, which succeeded), so by the claim the status should be
"partial"; the code reports "success" and does not even set
`parent_forcekilled`.  The claim's status characterisation is therefore
false on the fallback path. -/
theorem kill_process_tree_fallback_counterexample :
    (kill_process_tree 7 fallbackOnlyKillEnv).status = "success" ∧
    ¬ (kill_process_tree 7 fallbackOnlyKillEnv).status = "partial" ∧
    (kill_process_tree 7 fallbackOnlyKillEnv).parent_forcekilled = false ∧
    fallbackOnlyKillEnv.fallbackTermOk = false ∧
    fallbackOnlyKillEnv.fallbackKillOk = true := by
  decide

/-- C2 amended: `kill_process_tree` is total (it never raises for the
expected races, which appear here as the `termRaises` and `killRaises`
flags and the non-enumerable root, and it always returns a `KillResult`
for the given pid).  On the main path (root enumerable) the status is
"partial" exactly when some descendant was force-killed or the root was,
"success" exactly when neither happened, and never "failure".  On the
fallback path (root not enumerable) the status is "failure" exactly when
both the direct terminate and the direct kill fail, and "success" whenever
either succeeds — even when the root was reached only by the forceful
kill, in which case `parent_forcekilled` still reads false. -/
theorem kill_process_tree_status_spec (pid : Int) (env : KillEnv) :
    (kill_process_tree pid env).parent_pid = pid ∧
    (env.rootEnumerable = true →
      ((kill_process_tree pid env).status = "partial" ↔
        (0 < (kill_process_tree pid env).children_killed ∨
         (kill_process_tree pid env).parent_forcekilled = true)) ∧
      ((kill_process_tree pid env).status = "success" ↔
        ((kill_process_tree pid env).children_killed = 0 ∧
         (kill_process_tree pid env).parent_forcekilled = false)) ∧
      (kill_process_tree pid env).status ≠ "failure") ∧
    (env.rootEnumerable = false →
      ((kill_process_tree pid env).status = "failure" ↔
        (env.fallbackTermOk = false ∧ env.fallbackKillOk = false)) ∧
      ((kill_process_tree pid env).status = "success" ↔
        (env.fallbackTermOk = true ∨ env.fallbackKillOk = true)) ∧
      (kill_process_tree pid env).parent_forcekilled = false ∧
      (kill_process_tree pid env).children_killed = 0) := by
  have hps : ("partial" : String) ≠ "success" := by decide
  have hpf : ("partial" : String) ≠ "failure" := by decide
  have hsp : ("success" : String) ≠ "partial" := by decide
  have hsf : ("success" : String) ≠ "failure" := by decide
  obtain ⟨re, cs, pg, ft, fk⟩ := env
  cases re
  · cases ft <;> cases fk <;> simp [kill_process_tree]
  · refine ⟨?_, ?_, fun hcontra => by simp at hcontra⟩
    · cases pg <;> rfl
    · intro _
      cases pg
      · refine ⟨⟨fun _ => Or.inr rfl, fun _ => rfl⟩,
          ⟨fun h => absurd h hps,
           fun h => absurd (show (true : Bool) = false from h.2) (by decide)⟩,
          hpf⟩
      · by_cases hk : killedCount cs > 0
        · refine ⟨?_, ?_, ?_⟩
          · show (if killedCount cs > 0 then "partial" else "success") =
                "partial" ↔ (0 < killedCount cs ∨ false = true)
            rw [if_pos hk]
            exact ⟨fun _ => Or.inl hk, fun _ => rfl⟩
          · show (if killedCount cs > 0 then "partial" else "success") =
                "success" ↔ (killedCount cs = 0 ∧ false = false)
            rw [if_pos hk]
            exact ⟨fun h => absurd h hps,
              fun h => absurd h.1 (Nat.pos_iff_ne_zero.mp hk)⟩
          · show ¬ (if killedCount cs > 0 then "partial" else "success") =
                "failure"
            rw [if_pos hk]
            exact hpf
        · have h0 := Nat.eq_zero_of_not_pos hk
          refine ⟨?_, ?_, ?_⟩
          · show (if killedCount cs > 0 then "partial" else "success") =
                "partial" ↔ (0 < killedCount cs ∨ false = true)
            rw [if_neg hk]
            exact ⟨fun h => absurd h hsp,
              fun h => h.elim (fun hl => absurd hl hk)
                (fun hff => absurd hff (by decide))⟩
          · show (if killedCount cs > 0 then "partial" else "success") =
                "success" ↔ (killedCount cs = 0 ∧ false = false)
            rw [if_neg hk]
            exact ⟨fun _ => ⟨h0, rfl⟩, fun _ => rfl⟩
          · show ¬ (if killedCount cs > 0 then "partial" else "success") =
                "failure"
            rw [if_neg hk]
            exact hsf

/-- The environment of a run with one child that ignores the graceful
signal while the root exits within the grace period. -/
def stubbornChildEnv : KillEnv := ⟨true, [⟨false, false, false⟩], true, true, true⟩

/-- The environment of a run with two children that both exit within the
grace period, as does the root. -/
def gracefulTreeEnv : KillEnv :=
  ⟨true, [⟨false, true, false⟩, ⟨false, true, false⟩], true, true, true⟩

/-- Witness for C2 amended: a run with one child that ignored the graceful
signal (so it was force-killed) while the root exited in grace is reported
"partial"; a run in which everything exited gracefully is reported
"success". -/
theorem kill_process_tree_status_spec_witness :
    (kill_process_tree 7 stubbornChildEnv).status = "partial" ∧
    (kill_process_tree 7 gracefulTreeEnv).status = "success" := by
  constructor
  · exact ((kill_process_tree_status_spec 7 stubbornChildEnv).2.1
      rfl).1.mpr (Or.inl (by decide))
  · exact ((kill_process_tree_status_spec 7 gracefulTreeEnv).2.1
      rfl).2.1.mpr (by decide)

/-- Registry effect of one `destroy_sandbox` call as used by the cleanup
loop: with a registered id and a successful `docker rm -f` the entry is
deleted and the call reports success; with a failing `docker rm -f` the
registry is left untouched and the call reports failure. -/
theorem destroy_registry_cases (sandboxes : Registry) (sandbox_id : String)
    (rmRes volRes : CmdResult) :
    ((alget sandboxes sandbox_id).isSome = true → rmRes.isOk = true →
      (SandboxManager.destroy_sandbox sandboxes sandbox_id true rmRes volRes).1 =
        true ∧
      (SandboxManager.destroy_sandbox sandboxes sandbox_id true rmRes volRes).2.1 =
        aldel sandboxes sandbox_id) ∧
    (rmRes.isOk = false →
      (SandboxManager.destroy_sandbox sandboxes sandbox_id true rmRes volRes).1 =
        false ∧
      (SandboxManager.destroy_sandbox sandboxes sandbox_id true rmRes volRes).2.1 =
        sandboxes) := by
  cases hget : alget sandboxes sandbox_id <;> cases rmRes <;>
    simp [SandboxManager.destroy_sandbox, hget, CmdResult.isOk]

/-- Characterisation of the cleanup loop: entries outside `ids` keep their
binding, an entry of `ids` is removed exactly when its `docker rm -f`
succeeds, and the returned count is the number of ids whose removal
succeeded — one failing entry never stops the processing of the rest. -/
theorem cleanupLoop_spec (ids : List String) (sandboxes : Registry)
    (rmO volO : String → CmdResult)
    (hnd : (sandboxes.map Prod.fst).Nodup) (hids : ids.Nodup)
    (hmem : ∀ id ∈ ids, (alget sandboxes id).isSome = true) :
    (∀ k, k ∉ ids →
      alget (SandboxManager.cleanupLoop sandboxes ids rmO volO).2.1 k =
        alget sandboxes k) ∧
    (∀ k, k ∈ ids →
      alget (SandboxManager.cleanupLoop sandboxes ids rmO volO).2.1 k =
        (if (rmO k).isOk = true then none else alget sandboxes k)) ∧
    (SandboxManager.cleanupLoop sandboxes ids rmO volO).1 =
      (ids.filter (fun id => (rmO id).isOk)).length := by
  induction ids generalizing sandboxes with
  | nil =>
      exact ⟨fun k _ => rfl, fun k hk => absurd hk (List.not_mem_nil k), rfl⟩
  | cons id rest ih =>
      have hidrest : id ∉ rest := (List.nodup_cons.mp hids).1
      have hrestnd : rest.Nodup := (List.nodup_cons.mp hids).2
      have hmem_id : (alget sandboxes id).isSome = true :=
        hmem id (List.mem_cons_self id rest)
      have hreg : (SandboxManager.cleanupLoop sandboxes (id :: rest) rmO volO).2.1 =
          (SandboxManager.cleanupLoop
            (SandboxManager.destroy_sandbox sandboxes id true (rmO id)
              (volO id)).2.1 rest rmO volO).2.1 := rfl
      have hcount : (SandboxManager.cleanupLoop sandboxes (id :: rest) rmO volO).1 =
          (if (SandboxManager.destroy_sandbox sandboxes id true (rmO id)
              (volO id)).1 then 1 else 0) +
            (SandboxManager.cleanupLoop
              (SandboxManager.destroy_sandbox sandboxes id true (rmO id)
                (volO id)).2.1 rest rmO volO).1 := rfl
      by_cases hok : (rmO id).isOk = true
      · have hd := (destroy_registry_cases sandboxes id (rmO id) (volO id)).1
          hmem_id hok
        have hnd2 : ((aldel sandboxes id).map Prod.fst).Nodup :=
          keys_aldel_nodup sandboxes id hnd
        have hmem2 : ∀ k ∈ rest, (alget (aldel sandboxes id) k).isSome = true := by
          intro k hk
          have hne : k ≠ id := fun he => hidrest (he ▸ hk)
          rw [alget_aldel_ne sandboxes id k hne]
          exact hmem k (List.mem_cons_of_mem id hk)
        have IH := ih (aldel sandboxes id) hnd2 hrestnd hmem2
        refine ⟨?_, ?_, ?_⟩
        · intro k hk
          have hk1 : k ≠ id := fun he => hk (he ▸ List.mem_cons_self id rest)
          have hk2 : k ∉ rest := fun he => hk (List.mem_cons_of_mem id he)
          rw [hreg, hd.2, IH.1 k hk2, alget_aldel_ne sandboxes id k hk1]
        · intro k hk
          rcases List.mem_cons.mp hk with hk1 | hk1
          · subst hk1
            rw [hreg, hd.2, IH.1 k hidrest, if_pos hok]
            exact alget_aldel_self sandboxes k hnd
          · have hne : k ≠ id := fun he => hidrest (he ▸ hk1)
            rw [hreg, hd.2, IH.2.1 k hk1, alget_aldel_ne sandboxes id k hne]
        · have hfc : List.filter (fun i => (rmO i).isOk) (id :: rest) =
              id :: List.filter (fun i => (rmO i).isOk) rest := by
            simp [List.filter_cons, hok]
          rw [hcount, hd.1, hd.2, IH.2.2, hfc, List.length_cons]
          exact Nat.add_comm 1 _
      · have hokf : (rmO id).isOk = false := by
          cases hh : (rmO id).isOk
          · rfl
          · exact absurd hh hok
        have hd := (destroy_registry_cases sandboxes id (rmO id) (volO id)).2 hokf
        have IH := ih sandboxes hnd hrestnd
          (fun k hk => hmem k (List.mem_cons_of_mem id hk))
        refine ⟨?_, ?_, ?_⟩
        · intro k hk
          have hk2 : k ∉ rest := fun he => hk (List.mem_cons_of_mem id he)
          rw [hreg, hd.2, IH.1 k hk2]
        · intro k hk
          rcases List.mem_cons.mp hk with hk1 | hk1
          · subst hk1
            rw [hreg, hd.2, IH.1 k hidrest, if_neg hok]
          · rw [hreg, hd.2, IH.2.1 k hk1]
        · have hfc : List.filter (fun i => (rmO i).isOk) (id :: rest) =
              List.filter (fun i => (rmO i).isOk) rest := by
            simp [List.filter_cons, hokf]
          rw [hcount, hd.1, hd.2, IH.2.2, hfc]
          exact Nat.zero_add _

/-- C5: `cleanup_stopped_sandboxes(h)` touches exactly the entries with
status Stopped whose `created_at` age exceeds `h` hours (every other
entry — Running, Creating, Error, or recently stopped — keeps its exact
binding regardless of age), removes each selected entry exactly when its
destroy succeeds while individual failures leave the entry and never stop
the scan, and returns the count of sandboxes actually destroyed. -/
theorem cleanup_stopped_sandboxes_spec (sandboxes : Registry)
    (older_than_hours now : Int) (rmO volO : String → CmdResult)
    (hnd : (sandboxes.map Prod.fst).Nodup) :
    (∀ k info, alget sandboxes k = some info →
      SandboxManager.isStaleStopped older_than_hours now info = false →
      alget (SandboxManager.cleanup_stopped_sandboxes sandboxes
        older_than_hours now rmO volO).2.1 k = some info) ∧
    (∀ k info, alget sandboxes k = some info → info.status ≠ "stopped" →
      alget (SandboxManager.cleanup_stopped_sandboxes sandboxes
        older_than_hours now rmO volO).2.1 k = some info) ∧
    (∀ k info, alget sandboxes k = some info →
      SandboxManager.isStaleStopped older_than_hours now info = true →
      alget (SandboxManager.cleanup_stopped_sandboxes sandboxes
        older_than_hours now rmO volO).2.1 k =
        (if (rmO k).isOk = true then none else some info)) ∧
    (SandboxManager.cleanup_stopped_sandboxes sandboxes older_than_hours
        now rmO volO).1 =
      ((sandboxes.filter (fun p => SandboxManager.isStaleStopped older_than_hours now p.2)).filter
        (fun p => (rmO p.1).isOk)).length := by
  have hids : (SandboxManager.cleanupToRemove sandboxes older_than_hours
      now).Nodup :=
    ((List.filter_sublist sandboxes).map Prod.fst).nodup hnd
  have hmem : ∀ id ∈ SandboxManager.cleanupToRemove sandboxes
      older_than_hours now, (alget sandboxes id).isSome = true := by
    intro id hid
    exact alget_isSome_of_mem_keys (keys_filter_subset_keys _ sandboxes hid)
  have hloop := cleanupLoop_spec
    (SandboxManager.cleanupToRemove sandboxes older_than_hours now)
    sandboxes rmO volO hnd hids hmem
  have hstale : ∀ k info, alget sandboxes k = some info →
      (k ∈ SandboxManager.cleanupToRemove sandboxes older_than_hours now ↔
        SandboxManager.isStaleStopped older_than_hours now info = true) := by
    intro k info hget
    exact mem_keys_filter_iff
      (fun p => SandboxManager.isStaleStopped older_than_hours now p.2) hnd hget
  have hmain : ∀ k info, alget sandboxes k = some info →
      SandboxManager.isStaleStopped older_than_hours now info = false →
      alget (SandboxManager.cleanup_stopped_sandboxes sandboxes
        older_than_hours now rmO volO).2.1 k = some info := by
    intro k info hget hfalse
    have hnotin : k ∉ SandboxManager.cleanupToRemove sandboxes
        older_than_hours now := by
      intro hin
      rw [(hstale k info hget).mp hin] at hfalse
      exact absurd hfalse (by decide)
    rw [show (SandboxManager.cleanup_stopped_sandboxes sandboxes
        older_than_hours now rmO volO).2.1 =
      (SandboxManager.cleanupLoop sandboxes
        (SandboxManager.cleanupToRemove sandboxes older_than_hours now)
        rmO volO).2.1 from rfl]
    rw [hloop.1 k hnotin]
    exact hget
  refine ⟨hmain, ?_, ?_, ?_⟩
  · intro k info hget hstat
    refine hmain k info hget ?_
    have : ¬ (info.status = "stopped" ∧
        now - info.created_at > 3600 * older_than_hours) := fun hc => hstat hc.1
    simpa [SandboxManager.isStaleStopped] using this
  · intro k info hget htrue
    have hin : k ∈ SandboxManager.cleanupToRemove sandboxes
        older_than_hours now := (hstale k info hget).mpr htrue
    rw [show (SandboxManager.cleanup_stopped_sandboxes sandboxes
        older_than_hours now rmO volO).2.1 =
      (SandboxManager.cleanupLoop sandboxes
        (SandboxManager.cleanupToRemove sandboxes older_than_hours now)
        rmO volO).2.1 from rfl]
    rw [hloop.2.1 k hin, hget]
  · rw [show (SandboxManager.cleanup_stopped_sandboxes sandboxes
        older_than_hours now rmO volO).1 =
      (SandboxManager.cleanupLoop sandboxes
        (SandboxManager.cleanupToRemove sandboxes older_than_hours now)
        rmO volO).1 from rfl]
    rw [hloop.2.2]
    show (List.filter (fun i => (rmO i).isOk)
      (List.map Prod.fst (List.filter
        (fun p => SandboxManager.isStaleStopped older_than_hours now p.2) sandboxes))).length = _
    rw [List.filter_map]
    rw [List.length_map]
    rfl

/-- A record stored under key "s2": Running and old. -/
def runningOldInfo : SandboxInfo := { sampleInfo "running" with sandbox_id := "s2" }

/-- A record stored under key "s3": Stopped but recent. -/
def freshStoppedInfo : SandboxInfo :=
  { sampleInfo "stopped" with sandbox_id := "s3", created_at := 5000 }

/-- A registry holding one stale Stopped sandbox, one old Running sandbox
and one recently stopped sandbox. -/
def cleanupReg : Registry :=
  [("s1", sampleInfo "stopped"), ("s2", runningOldInfo), ("s3", freshStoppedInfo)]

/-- Witness for C5 at `now = 90000` seconds and a 24-hour threshold: only
the stale Stopped entry "s1" is destroyed (age 25 hours); the Running
entry and the recently stopped entry survive, and the count is 1. -/
theorem cleanup_stopped_sandboxes_spec_witness :
    alget (SandboxManager.cleanup_stopped_sandboxes cleanupReg 24 90000
      (fun _ => CmdResult.ok "") (fun _ => CmdResult.ok "")).2.1 "s1" = none ∧
    alget (SandboxManager.cleanup_stopped_sandboxes cleanupReg 24 90000
      (fun _ => CmdResult.ok "") (fun _ => CmdResult.ok "")).2.1 "s2" =
      some runningOldInfo ∧
    alget (SandboxManager.cleanup_stopped_sandboxes cleanupReg 24 90000
      (fun _ => CmdResult.ok "") (fun _ => CmdResult.ok "")).2.1 "s3" =
      some freshStoppedInfo ∧
    (SandboxManager.cleanup_stopped_sandboxes cleanupReg 24 90000
      (fun _ => CmdResult.ok "") (fun _ => CmdResult.ok "")).1 = 1 := by
  have h := cleanup_stopped_sandboxes_spec cleanupReg 24 90000
    (fun _ => CmdResult.ok "") (fun _ => CmdResult.ok "") (by decide)
  refine ⟨?_, ?_, ?_, ?_⟩
  · have h1 := h.2.2.1 "s1" (sampleInfo "stopped") (by decide) (by decide)
    simpa using h1
  · exact h.2.1 "s2" runningOldInfo (by decide) (by decide)
  · exact h.1 "s3" freshStoppedInfo (by decide) (by decide)
  · exact h.2.2.2.trans (by decide)

/-- C3: on a registered sandbox whose status is not Running,
`execute_command` raises the precondition failure (`RuntimeError`, the
PreconditionFailed signal) with an empty trace — the runtime is not
invoked; on a Running sandbox it returns the triple
`(exit code, stdout, stderr)` as values (never an exception, whatever the
exit code of the executed command, `execRes.returncode` being arbitrary
here). -/
theorem execute_command_spec (sandboxes : Registry) (sandbox_id : String)
    (command : List String) (workdir : String) (execRes : CmdOutput)
    (info : SandboxInfo) (hget : alget sandboxes sandbox_id = some info) :
    (info.status ≠ "running" →
      SandboxManager.execute_command sandboxes sandbox_id command workdir execRes =
        (Except.error (PyError.runtimeError
          ("Sandbox " ++ sandbox_id ++ " is not running")), [])) ∧
    (info.status = "running" →
      SandboxManager.execute_command sandboxes sandbox_id command workdir execRes =
        (Except.ok (execRes.returncode, execRes.stdout, execRes.stderr),
         [Event.runtimeCall (["docker", "exec", "-w", workdir,
           info.container_id] ++ command)])) := by
  constructor
  · intro h
    simp [SandboxManager.execute_command, hget, h]
  · intro h
    simp [SandboxManager.execute_command, hget, h]

/-- Witness for C3: a stopped sandbox yields the precondition failure
without a runtime call, and a running one yields the exit-code triple even
for a non-zero exit code. -/
theorem execute_command_spec_witness :
    SandboxManager.execute_command [("s1", sampleInfo "stopped")] "s1"
        ["ls"] "/workspace" ⟨3, "out", "boom"⟩ =
      (Except.error (PyError.runtimeError "Sandbox s1 is not running"), []) ∧
    SandboxManager.execute_command [("s1", sampleInfo "running")] "s1"
        ["ls"] "/workspace" ⟨3, "out", "boom"⟩ =
      (Except.ok (3, "out", "boom"),
       [Event.runtimeCall ["docker", "exec", "-w", "/workspace", "c1", "ls"]]) :=
  ⟨by
    have h := (execute_command_spec [("s1", sampleInfo "stopped")] "s1"
      ["ls"] "/workspace" ⟨3, "out", "boom"⟩ (sampleInfo "stopped")
      (by decide)).1 (by decide)
    simpa using h,
   by
    have h := (execute_command_spec [("s1", sampleInfo "running")] "s1"
      ["ls"] "/workspace" ⟨3, "out", "boom"⟩ (sampleInfo "running")
      (by decide)).2 rfl
    simpa using h⟩

/-- C6: `stop_sandbox` on an already-Stopped sandbox and `start_sandbox`
on an already-Running sandbox both return success with the registry
unchanged (in particular `container_id` and the whole record are
untouched) and an empty trace — the runtime is not invoked (the runtime
outcome parameters are arbitrary and unused). -/
theorem stop_start_idempotent (sandboxes : Registry) (sandbox_id : String)
    (stopRes startRes : CmdResult) (info : SandboxInfo)
    (hget : alget sandboxes sandbox_id = some info) :
    (info.status = "stopped" →
      SandboxManager.stop_sandbox sandboxes sandbox_id stopRes =
        (true, sandboxes, [])) ∧
    (info.status = "running" →
      SandboxManager.start_sandbox sandboxes sandbox_id startRes =
        (true, sandboxes, [])) := by
  constructor
  · intro h
    simp [SandboxManager.stop_sandbox, hget, h]
  · intro h
    simp [SandboxManager.start_sandbox, hget, h]

/-- Witness for C6, with failing runtime outcomes to stress that they are
never consulted. -/
theorem stop_start_idempotent_witness :
    SandboxManager.stop_sandbox [("s1", sampleInfo "stopped")] "s1"
        (.err 1 "" "") = (true, [("s1", sampleInfo "stopped")], []) ∧
    SandboxManager.start_sandbox [("s1", sampleInfo "running")] "s1"
        (.err 1 "" "") = (true, [("s1", sampleInfo "running")], []) :=
  ⟨(stop_start_idempotent [("s1", sampleInfo "stopped")] "s1"
      (.err 1 "" "") (.err 1 "" "") (sampleInfo "stopped") (by decide)).1 rfl,
   (stop_start_idempotent [("s1", sampleInfo "running")] "s1"
      (.err 1 "" "") (.err 1 "" "") (sampleInfo "running") (by decide)).2 rfl⟩

/-- C7: on an id absent from the registry, `get_sandbox` returns `None`,
`execute_command` raises `ValueError` (the NotFound signal), and
`stop_sandbox`, `start_sandbox`, `destroy_sandbox` return `False` after
the "not found" warning.  Every trace is free of runtime calls and of
error-level logs: an unknown id never reaches the runtime, so it can never
produce a runtime-failure result, and the emitted signal (warning
"not found") is the NotFound one, not the RuntimeFailure one (error log). -/
theorem unknown_id_yields_not_found (sandboxes : Registry)
    (sandbox_id : String) (command : List String) (workdir : String)
    (execRes : CmdOutput) (stopRes startRes rmRes volRes : CmdResult)
    (remove_volume : Bool) (hget : alget sandboxes sandbox_id = none) :
    SandboxManager.get_sandbox sandboxes sandbox_id = none ∧
    SandboxManager.execute_command sandboxes sandbox_id command workdir execRes =
      (Except.error (PyError.valueError
        ("Sandbox " ++ sandbox_id ++ " not found")), []) ∧
    SandboxManager.stop_sandbox sandboxes sandbox_id stopRes =
      (false, sandboxes,
       [Event.logWarning ("Sandbox " ++ sandbox_id ++ " not found")]) ∧
    SandboxManager.start_sandbox sandboxes sandbox_id startRes =
      (false, sandboxes,
       [Event.logWarning ("Sandbox " ++ sandbox_id ++ " not found")]) ∧
    SandboxManager.destroy_sandbox sandboxes sandbox_id remove_volume rmRes volRes =
      (false, sandboxes,
       [Event.logWarning ("Sandbox " ++ sandbox_id ++ " not found")]) := by
  refine ⟨?_, ?_, ?_, ?_, ?_⟩
  · simp [SandboxManager.get_sandbox, hget]
  · simp [SandboxManager.execute_command, hget]
  · simp [SandboxManager.stop_sandbox, hget]
  · simp [SandboxManager.start_sandbox, hget]
  · simp [SandboxManager.destroy_sandbox, hget]

/-- Witness for C7 on the empty registry. -/
theorem unknown_id_yields_not_found_witness :
    SandboxManager.get_sandbox ([] : Registry) "nope" = none ∧
    SandboxManager.execute_command ([] : Registry) "nope" ["ls"] "/workspace"
        ⟨0, "", ""⟩ =
      (Except.error (PyError.valueError "Sandbox nope not found"), []) ∧
    SandboxManager.stop_sandbox ([] : Registry) "nope" (.ok "") =
      (false, [], [Event.logWarning "Sandbox nope not found"]) ∧
    SandboxManager.start_sandbox ([] : Registry) "nope" (.ok "") =
      (false, [], [Event.logWarning "Sandbox nope not found"]) ∧
    SandboxManager.destroy_sandbox ([] : Registry) "nope" true (.ok "") (.ok "") =
      (false, [], [Event.logWarning "Sandbox nope not found"]) := by
  have h := unknown_id_yields_not_found ([] : Registry) "nope" ["ls"]
    "/workspace" ⟨0, "", ""⟩ (.ok "") (.ok "") (.ok "") (.ok "") true rfl
  simpa using h

/-- C10: when the runtime invocation inside `stop_sandbox`,
`start_sandbox` or `destroy_sandbox` exits non-zero, the operation returns
`False` and the registry is returned unchanged: the status is not updated
and the entry is not removed. -/
theorem runtime_failure_preserves_registry (sandboxes : Registry)
    (sandbox_id : String) (info : SandboxInfo) (rc : Int) (so se : String)
    (remove_volume : Bool) (volRes : CmdResult)
    (hget : alget sandboxes sandbox_id = some info) :
    (info.status ≠ "stopped" →
      SandboxManager.stop_sandbox sandboxes sandbox_id (.err rc so se) =
        (false, sandboxes,
         [Event.runtimeCall ["docker", "stop", info.container_id],
          Event.logError ("Failed to stop sandbox " ++ sandbox_id)])) ∧
    (info.status ≠ "running" →
      SandboxManager.start_sandbox sandboxes sandbox_id (.err rc so se) =
        (false, sandboxes,
         [Event.runtimeCall ["docker", "start", info.container_id],
          Event.logError ("Failed to start sandbox " ++ sandbox_id)])) ∧
    SandboxManager.destroy_sandbox sandboxes sandbox_id remove_volume
        (.err rc so se) volRes =
      (false, sandboxes,
       [Event.runtimeCall ["docker", "rm", "-f", info.container_id],
        Event.logError ("Failed to destroy sandbox " ++ sandbox_id)]) := by
  refine ⟨?_, ?_, ?_⟩
  · intro h
    simp [SandboxManager.stop_sandbox, hget, h]
  · intro h
    simp [SandboxManager.start_sandbox, hget, h]
  · simp [SandboxManager.destroy_sandbox, hget]

/-- C4: a successful `destroy_sandbox` performs the force-removal of the
container first, then (when requested) the best-effort volume removal
whose failure is only a warning, and the registry deletion last (the trace
equality fixes the order); afterwards the sandbox id resolves to nothing
and no record with that id appears in `list_sandboxes` — for every volume
outcome `volRes`, including a failing one. -/
theorem destroy_sandbox_success_spec (sandboxes : Registry)
    (sandbox_id : String) (remove_volume : Bool) (s : String)
    (volRes : CmdResult) (info : SandboxInfo) (hwf : RegistryWF sandboxes)
    (hget : alget sandboxes sandbox_id = some info) :
    SandboxManager.destroy_sandbox sandboxes sandbox_id remove_volume
        (.ok s) volRes =
      (true, aldel sandboxes sandbox_id,
       Event.runtimeCall ["docker", "rm", "-f", info.container_id] ::
         (SandboxManager.volRemovalEvents remove_volume volRes
            ("autocoder-sandbox-" ++ info.project_name ++ "-" ++ sandbox_id ++
             "-workspace") ++
          [Event.registryDelete sandbox_id,
           Event.logInfo ("Sandbox " ++ sandbox_id ++ " destroyed")])) ∧
    SandboxManager.get_sandbox (aldel sandboxes sandbox_id) sandbox_id = none ∧
    ∀ i ∈ SandboxManager.list_sandboxes (aldel sandboxes sandbox_id) none,
      i.sandbox_id ≠ sandbox_id := by
  refine ⟨by simp [SandboxManager.destroy_sandbox, hget], ?_, ?_⟩
  · exact alget_aldel_self sandboxes sandbox_id hwf.1
  · intro i hi
    rcases List.mem_map.mp hi with ⟨p, hp, hpi⟩
    have h1 : p.2.sandbox_id = p.1 := hwf.2 p (mem_of_mem_aldel hp)
    have h2 : p.1 ≠ sandbox_id := fst_ne_of_mem_aldel hwf.1 hp
    rw [← hpi, h1]
    exact h2

/-- Witness for C4 with a failing volume removal: the sandbox is gone from
the registry all the same. -/
theorem destroy_sandbox_success_spec_witness :
    SandboxManager.destroy_sandbox [("s1", sampleInfo "running")] "s1" true
        (.ok "") (.err 1 "" "volume busy") =
      (true, [],
       Event.runtimeCall ["docker", "rm", "-f", "c1"] ::
         (SandboxManager.volRemovalEvents true (.err 1 "" "volume busy")
            "autocoder-sandbox-proj-s1-workspace" ++
          [Event.registryDelete "s1", Event.logInfo "Sandbox s1 destroyed"])) ∧
    SandboxManager.get_sandbox
      (aldel [("s1", sampleInfo "running")] "s1") "s1" = none := by
  have h := destroy_sandbox_success_spec [("s1", sampleInfo "running")] "s1"
    true "" (.err 1 "" "volume busy") (sampleInfo "running") (by decide)
    (by decide)
  exact ⟨by simpa using h.1, h.2.1⟩

/-- A concrete manager state at the object level: the registry owns one
record, stored at address 0. -/
def aliasState : HeapState :=
  { heap := [(0, sampleInfo "running")], registry := [("s1", 0)] }

/-- C9 counterexample: the registry hands out its own record, not a copy.
On `aliasState`, `get_sandbox` returns the stored address; mutating
`status` through the returned reference changes what a subsequent
`get_sandbox` read observes, so the claim that callers receive copies and
that mutation cannot change the registry state is false on the code. -/
theorem registry_record_alias_counterexample :
    get_sandbox_ref aliasState "s1" = some 0 ∧
    observe aliasState "s1" = some (sampleInfo "running") ∧
    observe (set_status_via_ref aliasState 0 "stopped") "s1" =
      some { sampleInfo "running" with status := "stopped" } ∧
    observe (set_status_via_ref aliasState 0 "stopped") "s1" ≠
      observe aliasState "s1" := by
  decide

/-- C9 amended: `get_sandbox` returns a reference aliasing the
registry-owned record (an address that is also among the references
`list_sandboxes` hands out), and mutating the record through that
reference is visible in every subsequent read of the same sandbox id. -/
theorem registry_record_alias_spec (st : HeapState) (sandbox_id : String)
    (a : Nat) (info : SandboxInfo) (v : String)
    (href : get_sandbox_ref st sandbox_id = some a)
    (hheap : alget st.heap a = some info) :
    a ∈ list_sandbox_refs st ∧
    get_sandbox_ref (set_status_via_ref st a v) sandbox_id = some a ∧
    observe (set_status_via_ref st a v) sandbox_id =
      some { info with status := v } := by
  have hreg : get_sandbox_ref (set_status_via_ref st a v) sandbox_id = some a :=
    href
  refine ⟨snd_mem_of_alget href, hreg, ?_⟩
  simp only [observe, hreg]
  simp only [set_status_via_ref, heapSet]
  rw [hheap]
  exact alget_alset_self st.heap a { info with status := v }

/-- Witness for C9 amended on the concrete aliased state. -/
theorem registry_record_alias_spec_witness :
    (0 : Nat) ∈ list_sandbox_refs aliasState ∧
    observe (set_status_via_ref aliasState 0 "error") "s1" =
      some { sampleInfo "running" with status := "error" } := by
  have h := registry_record_alias_spec aliasState "s1" 0
    (sampleInfo "running") "error" (by decide) (by decide)
  exact ⟨h.1, h.2.2⟩

/-- Witness for C10 on a running sandbox whose stop, start and destroy all
fail at the runtime. -/
theorem runtime_failure_preserves_registry_witness :
    SandboxManager.stop_sandbox [("s1", sampleInfo "running")] "s1"
        (.err 125 "" "daemon error") =
      (false, [("s1", sampleInfo "running")],
       [Event.runtimeCall ["docker", "stop", "c1"],
        Event.logError "Failed to stop sandbox s1"]) ∧
    SandboxManager.destroy_sandbox [("s1", sampleInfo "running")] "s1" true
        (.err 125 "" "daemon error") (.ok "") =
      (false, [("s1", sampleInfo "running")],
       [Event.runtimeCall ["docker", "rm", "-f", "c1"],
        Event.logError "Failed to destroy sandbox s1"]) :=
  ⟨by
    have h := (runtime_failure_preserves_registry
      [("s1", sampleInfo "running")] "s1" (sampleInfo "running") 125 ""
      "daemon error" true (.ok "") (by decide)).1 (by decide)
    simpa using h,
   by
    have h := (runtime_failure_preserves_registry
      [("s1", sampleInfo "running")] "s1" (sampleInfo "running") 125 ""
      "daemon error" true (.ok "") (by decide)).2.2
    simpa using h⟩

end Autocoder
